import Mathlib

/-!
Verification development for the `recc-cache` repository: a shallow
embedding of `src/recc_cache/redis/redis_cache.py` (the `RedisCache`
class) together with theorems settling the specification claims.

Modelling conventions:
* The Python dict `self._subscribes : Dict[str, Task]` is embedded as an
  association list `List (String × TaskStatus)` with insertion-order
  update semantics (`dictInsert` overwrites the value of an existing key
  in place, otherwise appends).
* The Python set `self._subscribes_exit : Set[str]` is embedded as a
  duplicate-free `List String` (`setAdd` / `List.erase`).
* `asyncio.Task` handles are abstracted to their status
  (running / done / cancelled); `task.cancel()` moves a running task to
  cancelled and is a no-op on a finished task.
* The external aioredis driver is out of scope of the repository; where a
  claim needs its behaviour (the keyspace for `clear`, the pub/sub
  message buffer for the listener task) a small driver model is supplied
  and documented at the definition.
* Exceptional control flow (`assert`, `raise`, uncaught `KeyError`,
  `TimeoutError`, `NotImplementedError`) is embedded with explicit
  `Option PyException` / `Except PyException` results.
-/

namespace ReccCache

/-- Decidable equality for `Except` results, so that concrete runs of the
embedded fallible operations can be checked by evaluation. -/
instance instDecidableEqExcept {ε α : Type} [DecidableEq ε] [DecidableEq α] :
    DecidableEq (Except ε α) := fun x y =>
  match x, y with
  | .ok a, .ok b => decidable_of_iff (a = b) (by simp)
  | .ok _, .error _ => isFalse (fun h => Except.noConfusion h)
  | .error _, .ok _ => isFalse (fun h => Except.noConfusion h)
  | .error e, .error f => decidable_of_iff (e = f) (by simp)

/-- The Python exceptions that appear in the embedded code paths.
`taskFailure` stands for an arbitrary exception re-raised by awaiting a
failed listener task. -/
inductive PyException where
  | valueError
  | typeError
  | timeoutError
  | assertionError
  | keyError
  | notImplementedError
  | taskFailure
  deriving DecidableEq

/-- Python values that can appear in the `**kwargs` configuration bag
(the cases relevant to `int(...)` conversion: an int, a string, `None`). -/
inductive PyValue where
  | intV (n : Int)
  | strV (s : String)
  | noneV
  deriving DecidableEq

/-- Value of a non-empty all-digit character list, `none` otherwise. -/
def digitsValue (cs : List Char) : Option Nat :=
  if cs = [] then none
  else if cs.all (fun c => c.isDigit) then
    some (cs.foldl (fun acc c => acc * 10 + (c.toNat - 48)) 0)
  else none

/-- Surrounding whitespace removed from a character list (Python's
`int(str)` ignores surrounding whitespace). -/
def trimChars (cs : List Char) : List Char :=
  (((cs.dropWhile (fun c => c.isWhitespace)).reverse.dropWhile
    (fun c => c.isWhitespace)).reverse)

/-- Python `int(s)` on a string: optional surrounding whitespace, optional
sign, then decimal digits; anything else raises `ValueError`. -/
def parsePyInt (s : String) : Option Int :=
  match trimChars s.data with
  | '+' :: rest => (digitsValue rest).map (fun n => (n : Int))
  | '-' :: rest => (digitsValue rest).map (fun n => -(n : Int))
  | cs => (digitsValue cs).map (fun n => (n : Int))

/-- Python `int(value)`: an int is returned unchanged, a numeric string is
parsed (`ValueError` otherwise), and a value of non-convertible type such
as `None` raises `TypeError`. -/
def pyInt : PyValue → Except PyException Int
  | .intV n => .ok n
  | .strV s =>
    match parsePyInt s with
    | some n => .ok n
    | none => .error .valueError
  | .noneV => .error .typeError

/-- `DEFAULT_MAX_CONNECTIONS` (redis_cache.py line 16). -/
def DEFAULT_MAX_CONNECTIONS : Int := 10

/-- `EX_KEY_MAX_CONNECTIONS` (redis_cache.py line 17). -/
def EX_KEY_MAX_CONNECTIONS : String := "max_connections"

/-- `CLEAR_SCAN_STEP` (redis_cache.py line 21). -/
def CLEAR_SCAN_STEP : Nat := 1024

/-- `self._subscribes_tick = 1.0` (redis_cache.py line 52). -/
def subscribesTickDefault : Rat := 1

/-- `self._subscribes_close_timeout = 5.0` (redis_cache.py line 54). -/
def subscribesCloseTimeoutDefault : Rat := 5

/-- `kwargs.get(k)` on the configuration bag. -/
def lookupAssoc (kwargs : List (String × PyValue)) (k : String) : Option PyValue :=
  (kwargs.find? (fun p => p.1 == k)).map Prod.snd

/-- Status of an `asyncio.Task` handle. -/
inductive TaskStatus where
  | running
  | done
  | cancelled
  deriving DecidableEq

/-- Effect of `task.cancel()` on the task: a running task gets a
cancellation request; a task that already finished is unaffected. -/
def TaskStatus.cancelRun : TaskStatus → TaskStatus
  | .running => .cancelled
  | .done => .done
  | .cancelled => .cancelled

/-- Return value of `task.cancel()`: whether the cancellation request was
accepted (the task had not finished yet). -/
def TaskStatus.cancelAccepted : TaskStatus → Bool
  | .running => true
  | .done => false
  | .cancelled => false

/-- Lookup in the embedded `Dict[str, Task]`. -/
def dictLookup (d : List (String × TaskStatus)) (k : String) : Option TaskStatus :=
  (d.find? (fun p => p.1 == k)).map Prod.snd

/-- `d[k] = v` on the embedded dict: overwrite in place if the key exists,
append otherwise (Python dicts keep insertion order). -/
def dictInsert (d : List (String × TaskStatus)) (k : String) (v : TaskStatus) :
    List (String × TaskStatus) :=
  if d.any (fun p => p.1 == k) then
    d.map (fun p => if p.1 == k then (k, v) else p)
  else d ++ [(k, v)]

/-- `d.keys()` of the embedded dict. -/
def dictKeys (d : List (String × TaskStatus)) : List String :=
  d.map Prod.fst

/-- `s.add(x)` on the embedded set. -/
def setAdd (s : List String) (x : String) : List String :=
  if x ∈ s then s else s ++ [x]

/-- The mutable state of a `RedisCache` instance.  `redisOpen` embeds
`self._redis is not None`; `keyPrefix` embeds `self._prefix`; the task
statuses stored in `subscribes` are read as the statuses at the moment
the state is observed. -/
structure CacheState where
  host : String
  port : Int
  pw : Option String
  keyPrefix : String
  kwargs : List (String × PyValue)
  redisOpen : Bool
  subscribes : List (String × TaskStatus)
  subscribesExit : List String
  deriving DecidableEq

namespace RedisCache

/-- `RedisCache.__init__` (redis_cache.py lines 34-54): stores the
connection parameters; `self._prefix = prefix if prefix else str()`
(Python truthiness: both `None` and `""` give the empty string); the
registry and the exit set start empty and the client starts unopened. -/
def init (host : String) (port : Int) (pw : Option String)
    (pfx : Option String) (kwargs : List (String × PyValue)) : CacheState :=
  { host := host
    port := port
    pw := pw
    keyPrefix :=
      match pfx with
      | none => ""
      | some p => if p = "" then "" else p
    kwargs := kwargs
    redisOpen := false
    subscribes := []
    subscribesExit := [] }

/-- `RedisCache._get_max_connections` (redis_cache.py lines 56-60):
`int(self._kwargs.get(EX_KEY_MAX_CONNECTIONS, default_value))` guarded by
`except ValueError: return default_value`.  Only `ValueError` is caught;
a `TypeError` from `int(...)` propagates. -/
def getMaxConnections (kwargs : List (String × PyValue)) (defaultValue : Int) :
    Except PyException Int :=
  let raw :=
    match lookupAssoc kwargs EX_KEY_MAX_CONNECTIONS with
    | some v => v
    | none => PyValue.intV defaultValue
  match pyInt raw with
  | .ok n => .ok n
  | .error .valueError => .ok defaultValue
  | .error e => .error e

/-- `RedisCache.is_open` (redis_cache.py lines 62-63). -/
def isOpen (s : CacheState) : Bool :=
  s.redisOpen

end RedisCache

/-- Environment outcome of the `await task` batch inside
`close_subscribes` (redis_cache.py lines 77-79): either every task
terminated before the bounded timeout, or `asyncio.TimeoutError` was
raised by the timeout guard, or awaiting some task re-raised that task's
own exception (which `except TimeoutError` does not catch). -/
inductive AwaitOutcome where
  | completed
  | timedOut
  | taskRaised
  deriving DecidableEq

/-- Result of `close_subscribes`: the exception propagated to the caller
(if any), the client state after the `finally` block, and the final
statuses of the task handles that were registered at entry (the handles
outlive the registry, which only drops its references). -/
structure CloseSubscribesResult where
  raised : Option PyException
  state : CacheState
  tasks : List (String × TaskStatus)
  deriving DecidableEq

namespace RedisCache

/-- `RedisCache.close_subscribes` (redis_cache.py lines 73-85):
flags every registered channel in the exit set, awaits every task under
one `async_timeout` guard; on `TimeoutError` calls `task.cancel()` on
every registered task; any other exception from an `await task`
propagates; the `finally` block unconditionally clears the registry and
the exit set.  The statuses in `s.subscribes` are read as the statuses at
the moment the `try` body stops (so on `timedOut` they are the statuses
when the timeout fired). -/
def closeSubscribes (s : CacheState) (outcome : AwaitOutcome) :
    CloseSubscribesResult :=
  let _flagged := (dictKeys s.subscribes).foldl setAdd s.subscribesExit
  let cleared : CacheState := { s with subscribes := [], subscribesExit := [] }
  match outcome with
  | .completed =>
    { raised := none
      state := cleared
      tasks := s.subscribes.map (fun p => (p.1, TaskStatus.done)) }
  | .timedOut =>
    { raised := none
      state := cleared
      tasks := s.subscribes.map (fun p => (p.1, p.2.cancelRun)) }
  | .taskRaised =>
    { raised := some .taskFailure
      state := cleared
      tasks := s.subscribes }

/-- `RedisCache.close` (redis_cache.py lines 87-92): `assert self._redis`
(an `AssertionError` on a closed client, with no state change), then
`await self.close_subscribes()`, then `assert len(self._subscribes) == 0`,
then the connection is released and `self._redis = None`.  If
`close_subscribes` propagated an exception, `close` propagates it before
releasing the connection. -/
def close (s : CacheState) (outcome : AwaitOutcome) :
    Option PyException × CacheState :=
  if s.redisOpen = false then (some .assertionError, s)
  else
    let r := closeSubscribes s outcome
    match r.raised with
    | some e => (some e, r.state)
    | none =>
      if r.state.subscribes.length = 0 then
        (none, { r.state with redisOpen := false })
      else (some .assertionError, r.state)

end RedisCache

/-- A pub/sub message record as delivered by
`PubSub.get_message(ignore_subscribe_messages=True)`: subscription
confirmations are already filtered out, so every record reaching the
loop body is a payload message (`bytes` fields are carried as `String`,
the payload content being opaque to this module). -/
structure Message where
  type : String
  channel : String
  pattern : Option String
  data : String
  deriving DecidableEq

/-- How `_subscribe_task` classifies the caller-supplied callback:
`iscoroutinefunction(callback)`, else `isfunction(callback)`, else
neither (redis_cache.py lines 148-153). -/
inductive CallbackKind where
  | coroutineFunction
  | syncFunction
  | other
  deriving DecidableEq

/-- Whether the dispatch in the loop body accepts this callback kind
(both accepted kinds run to completion before the loop continues; the
third arm is `raise NotImplementedError`). -/
def callbackAccepts : CallbackKind → Bool
  | .coroutineFunction => true
  | .syncFunction => true
  | .other => false

/-- One callback invocation on message `m` with `delivered` the messages
delivered so far: `await callback(message)` for a coroutine function,
`callback(message)` inline for a plain function, and
`raise NotImplementedError` otherwise (redis_cache.py lines 148-153 and
162-167). -/
def invokeCallback (kind : CallbackKind) (m : Message) (delivered : List Message) :
    Except PyException (List Message) :=
  match kind with
  | .coroutineFunction => .ok (delivered ++ [m])
  | .syncFunction => .ok (delivered ++ [m])
  | .other => .error .notImplementedError

/-- Terminal observation of one `_subscribe_task` run: the messages still
buffered on the pub/sub handle, the exit set, and the messages delivered
to the callback, tagged by how the run ended. -/
inductive RunResult where
  | finished (buffered : List Message) (exitSet : List String) (delivered : List Message)
  | raised (e : PyException) (buffered : List Message) (exitSet : List String)
      (delivered : List Message)
  | outOfFuel (buffered : List Message) (exitSet : List String) (delivered : List Message)
  deriving DecidableEq

namespace RedisCache

/-- The consume loop of `_subscribe_task` (redis_cache.py lines 142-157),
over a driver model in which the pub/sub handle holds a buffer of
already-received messages: `get_message(..., timeout=tick)` returns the
head of the buffer when one is buffered and `None` after the poll tick
otherwise.  Each iteration delivers the fetched message (if any) through
`invokeCallback`, then checks the exit set: if `key` is present it is
removed and the loop breaks.  `fuel` bounds the number of iterations of
the source's unbounded `while True`. -/
def consumeLoop (kind : CallbackKind) (key : String) :
    Nat → List Message → List String → List Message → RunResult
  | 0, buf, ex, dl => .outOfFuel buf ex dl
  | fuel + 1, buf, ex, dl =>
    match buf with
    | m :: rest =>
      match invokeCallback kind m dl with
      | .error e => .raised e rest ex dl
      | .ok dl' =>
        if key ∈ ex then .finished rest (ex.erase key) dl'
        else consumeLoop kind key fuel rest ex dl'
    | [] =>
      if key ∈ ex then .finished [] (ex.erase key) dl
      else consumeLoop kind key fuel [] ex dl

/-- The graceful-exit drain loop of `_subscribe_task` (redis_cache.py
lines 159-169): `while flush_remain_messages`, fetch with the zero-wait
`get_message(ignore_subscribe_messages=True)` (head of the buffer, or
`None` immediately when it is empty), deliver the message or break on
`None`.  Returns the exception raised (if any), the remaining buffer and
the delivered messages. -/
def drainLoop (kind : CallbackKind) :
    Bool → List Message → List Message → Option PyException × List Message × List Message
  | false, buf, dl => (none, buf, dl)
  | true, [], dl => (none, [], dl)
  | true, m :: rest, dl =>
    match invokeCallback kind m dl with
    | .error e => (some e, rest, dl)
    | .ok dl' => drainLoop kind true rest dl'

/-- `RedisCache._subscribe_task` (redis_cache.py lines 135-169): the
consume loop followed, on graceful exit, by the drain loop
(`flush_remain_messages` defaults to `True` at the single call site in
`subscribe`). -/
def subscribeTask (kind : CallbackKind) (key : String) (flushRemainMessages : Bool)
    (fuel : Nat) (buf : List Message) (ex : List String) : RunResult :=
  match consumeLoop kind key fuel buf ex [] with
  | .finished buf1 ex1 dl1 =>
    match drainLoop kind flushRemainMessages buf1 dl1 with
    | (none, buf2, dl2) => .finished buf2 ex1 dl2
    | (some e, buf2, dl2) => .raised e buf2 ex1 dl2
  | r => r

end RedisCache

/-- Events of one listener-task execution, used to state the delivery
ordering discipline: the task fetched a message from the pub/sub handle,
started its callback invocation, or saw that invocation complete. -/
inductive DeliveryEvent where
  | fetched (m : Message)
  | callbackStarted (m : Message)
  | callbackCompleted (m : Message)
  deriving DecidableEq

/-- The event block of one fully delivered message: it is fetched, its
callback starts, and the callback completes before anything further
happens. -/
def deliveryBlock (m : Message) : List DeliveryEvent :=
  [.fetched m, .callbackStarted m, .callbackCompleted m]

namespace RedisCache

/-- Event trace of `consumeLoop`: a fetched message is followed by its
callback start and completion when the callback kind is accepted (for a
coroutine callback the loop suspends on the `await` until completion;
for a plain function it runs inline), and by nothing when the dispatch
raises instead. -/
def consumeLoopTrace (kind : CallbackKind) (key : String) :
    Nat → List Message → List String → List DeliveryEvent
  | 0, _, _ => []
  | fuel + 1, buf, ex =>
    match buf with
    | m :: rest =>
      if callbackAccepts kind then
        deliveryBlock m ++
          (if key ∈ ex then [] else consumeLoopTrace kind key fuel rest ex)
      else [.fetched m]
    | [] =>
      if key ∈ ex then [] else consumeLoopTrace kind key fuel [] ex

/-- Event trace of `drainLoop`. -/
def drainLoopTrace (kind : CallbackKind) :
    Bool → List Message → List DeliveryEvent
  | false, _ => []
  | true, [] => []
  | true, m :: rest =>
    if callbackAccepts kind then
      deliveryBlock m ++ drainLoopTrace kind true rest
    else [.fetched m]

/-- Event trace of one `_subscribe_task` run: the consume-loop trace,
extended with the drain-loop trace when the consume loop exited
gracefully. -/
def subscribeTaskTrace (kind : CallbackKind) (key : String)
    (flushRemainMessages : Bool) (fuel : Nat) (buf : List Message)
    (ex : List String) : List DeliveryEvent :=
  match consumeLoop kind key fuel buf ex [] with
  | .finished buf1 _ _ =>
    consumeLoopTrace kind key fuel buf ex ++
      drainLoopTrace kind flushRemainMessages buf1
  | _ => consumeLoopTrace kind key fuel buf ex

end RedisCache

/-- The command a value operation sends to the store driver (the key/value
operations are single delegations; values are carried as `String`, their
content being opaque to this module). -/
inductive StoreCommand where
  | setCmd (key : String) (val : String)
  | msetCmd (pairs : List (String × String))
  | getCmd (key : String)
  | appendCmd (key : String) (val : String)
  | expireCmd (key : String) (seconds : Int)
  | deleteCmd (keys : List String)
  | existsCmd (keys : List String)
  deriving DecidableEq

/-- The key strings a store command addresses. -/
def StoreCommand.cmdKeys : StoreCommand → List String
  | .setCmd k _ => [k]
  | .msetCmd ps => ps.map Prod.fst
  | .getCmd k => [k]
  | .appendCmd k _ => [k]
  | .expireCmd k _ => [k]
  | .deleteCmd ks => ks
  | .existsCmd ks => ks

/-- The key/value pairs of an `MSET` command (empty for the others). -/
def StoreCommand.cmdPairs : StoreCommand → List (String × String)
  | .msetCmd ps => ps
  | _ => []

namespace RedisCache

/-- `RedisCache.set` (redis_cache.py lines 99-100):
`self.redis.set(self._prefix + key, val)`. -/
def set (s : CacheState) (key : String) (val : String) : StoreCommand :=
  .setCmd (s.keyPrefix ++ key) val

/-- `RedisCache.mset` (redis_cache.py lines 102-103): delegates with the
comprehension `\x7bself._prefix + k: v for k, v in pairs.items()\x7d`. -/
def mset (s : CacheState) (pairs : List (String × String)) : StoreCommand :=
  .msetCmd (pairs.map (fun p => (s.keyPrefix ++ p.1, p.2)))

/-- `RedisCache.get` (redis_cache.py lines 105-106). -/
def get (s : CacheState) (key : String) : StoreCommand :=
  .getCmd (s.keyPrefix ++ key)

/-- `RedisCache.append` (redis_cache.py lines 108-109). -/
def append (s : CacheState) (key : String) (val : String) : StoreCommand :=
  .appendCmd (s.keyPrefix ++ key) val

/-- `RedisCache.expire` (redis_cache.py lines 111-112). -/
def expire (s : CacheState) (key : String) (seconds : Int) : StoreCommand :=
  .expireCmd (s.keyPrefix ++ key) seconds

/-- `RedisCache.delete` (redis_cache.py lines 114-116):
`real_keys = (self._prefix + k for k in keys)`. -/
def delete (s : CacheState) (keys : List String) : StoreCommand :=
  .deleteCmd (keys.map (fun k => s.keyPrefix ++ k))

/-- `RedisCache.exists` (redis_cache.py lines 118-120); named
`existsCount` here because `exists` already has a meaning in the proof
language. -/
def existsCount (s : CacheState) (keys : List String) : StoreCommand :=
  .existsCmd (keys.map (fun k => s.keyPrefix ++ k))

end RedisCache

/-- Driver model for `clear`: the remote keyspace, as a list of key/value
pairs. -/
def Keyspace := List (String × String)

/-- Whether a key matches the glob pattern `pfx + "*"` that `clear`
passes to `SCAN` (redis_cache.py line 126): the key starts with `pfx`.
(The embedding assumes the configured prefix holds no glob
metacharacters; the source carries a TODO to validate the prefix.) -/
def matchesClearPattern (pfx : String) (k : String) : Bool :=
  pfx.data.isPrefixOf k.data

/-- Driver model of `redis.scan(cursor=0, match=pfx + "*", count=n)`:
one scan pass from cursor 0, returning a cursor (which `clear` ignores)
and the first `n` keys of the keyspace matching the pattern. -/
def storeScan (store : List (String × String)) (pfx : String) (n : Nat) :
    Nat × List String :=
  (0, (((store.map Prod.fst).filter (fun k => matchesClearPattern pfx k)).take n))

/-- Driver model of `redis.delete(*keys)`: every pair whose key is listed
is removed; every other pair is untouched. -/
def storeDelete (store : List (String × String)) (keys : List String) :
    List (String × String) :=
  store.filter (fun p => !(keys.contains p.1))

namespace RedisCache

/-- `RedisCache.clear` (redis_cache.py lines 122-133): repeatedly scan
from cursor 0 for `self._prefix + "*"` with `count=CLEAR_SCAN_STEP`,
delete the returned keys, and break as soon as a scan pass returns no
keys.  `fuel` bounds the iterations of the source's unbounded
`while True`; `none` means the loop had not yet terminated within
`fuel` passes. -/
def clear (pfx : String) : Nat → List (String × String) → Option (List (String × String))
  | 0, _ => none
  | fuel + 1, store =>
    if (storeScan store pfx CLEAR_SCAN_STEP).2.isEmpty then some store
    else clear pfx fuel (storeDelete store (storeScan store pfx CLEAR_SCAN_STEP).2)

/-- `RedisCache.get_subscribe_task` (redis_cache.py lines 174-175):
`self._subscribes[channel]`; a missing channel raises `KeyError`. -/
def getSubscribeTask (s : CacheState) (channel : String) :
    Except PyException TaskStatus :=
  match dictLookup s.subscribes channel with
  | none => .error .keyError
  | some t => .ok t

/-- `RedisCache.cancel_subscribe_task` (redis_cache.py lines 177-178):
`self._subscribes[channel].cancel()`; a missing channel raises `KeyError`
before any cancellation happens.  On success, returns whether the
cancellation request was accepted, together with the state holding the
task's updated status. -/
def cancelSubscribeTask (s : CacheState) (channel : String) :
    Except PyException (Bool × CacheState) :=
  match dictLookup s.subscribes channel with
  | none => .error .keyError
  | some t =>
    .ok (t.cancelAccepted,
      { s with subscribes := dictInsert s.subscribes channel t.cancelRun })

/-- `RedisCache.wait_subscribe` (redis_cache.py lines 187-188):
`await self._subscribes[channel]`; a missing channel raises `KeyError`.
Awaiting a present task mutates neither the registry nor the exit set
(the terminal outcome the await propagates is environment behaviour). -/
def waitSubscribe (s : CacheState) (channel : String) :
    Except PyException Unit :=
  match dictLookup s.subscribes channel with
  | none => .error .keyError
  | some _ => .ok ()

end RedisCache

/-- Every registry-visible operation of the class other than
`close_subscribes` (and `close`, which removes registry entries only by
delegating to `close_subscribes`, see `RedisCache.close`).
`listenerCheckpointOp` is the exit-set checkpoint a listener task runs at
lines 155-157; the value operations and `publish` talk only to the store
driver. -/
inductive CacheOp where
  | subscribeOp (channel : String)
  | exitFlagSubscribeOp (channel : String)
  | exitFlagSubscribesOp
  | cancelSubscribeTaskOp (channel : String)
  | getSubscribeTaskOp (channel : String)
  | getSubscribeChannelsOp
  | waitSubscribeOp (channel : String)
  | listenerCheckpointOp (channel : String)
  | setOp (key : String) (val : String)
  | msetOp (pairs : List (String × String))
  | getOp (key : String)
  | appendOp (key : String) (val : String)
  | expireOp (key : String) (seconds : Int)
  | deleteOp (keys : List String)
  | existsOp (keys : List String)
  | clearOp
  | publishOp (channel : String) (val : String)
  deriving DecidableEq

/-- Effect of each operation on the client state (the store driver's
keyspace lives outside `CacheState`; operations that only talk to the
driver, or that raise before mutating, leave the state unchanged).
`subscribe` (redis_cache.py lines 190-195) registers the freshly spawned
task under its channel; `exit_flag_subscribe` / `exit_flag_subscribes`
(lines 180-185) add channels to the exit set; `cancel_subscribe_task`
updates the task's status in place; the listener checkpoint removes its
own channel from the exit set when flagged. -/
def applyOp (s : CacheState) : CacheOp → CacheState
  | .subscribeOp ch =>
    { s with subscribes := dictInsert s.subscribes ch .running }
  | .exitFlagSubscribeOp ch =>
    { s with subscribesExit := setAdd s.subscribesExit ch }
  | .exitFlagSubscribesOp =>
    { s with subscribesExit := (dictKeys s.subscribes).foldl setAdd s.subscribesExit }
  | .cancelSubscribeTaskOp ch =>
    match dictLookup s.subscribes ch with
    | none => s
    | some t => { s with subscribes := dictInsert s.subscribes ch t.cancelRun }
  | .waitSubscribeOp _ => s
  | .listenerCheckpointOp ch =>
    if ch ∈ s.subscribesExit then
      { s with subscribesExit := s.subscribesExit.erase ch }
    else s
  | _ => s

/-! ## Helper lemmas -/

theorem dictLookup_eq_none_of_not_mem {d : List (String × TaskStatus)} {ch : String}
    (h : ch ∉ dictKeys d) : dictLookup d ch = none := by
  unfold dictLookup
  have hf : List.find? (fun p => p.1 == ch) d = none := by
    rw [List.find?_eq_none]
    intro p hp hbeq
    exact h (List.mem_map.mpr ⟨p, hp, by simpa using hbeq⟩)
  rw [hf]
  rfl

theorem mem_dictKeys_dictInsert {d : List (String × TaskStatus)} {ch : String}
    (k : String) (v : TaskStatus) (h : ch ∈ dictKeys d) :
    ch ∈ dictKeys (dictInsert d k v) := by
  unfold dictInsert dictKeys at *
  split
  · have : List.map Prod.fst (List.map (fun p => if p.1 == k then (k, v) else p) d) =
        List.map Prod.fst d := by
      rw [List.map_map]
      refine List.map_congr_left ?_
      intro p _
      by_cases hpk : p.1 = k
      · simp [Function.comp, hpk]
      · simp [Function.comp, hpk]
    rw [this]
    exact h
  · rw [List.map_append]
    exact List.mem_append_left _ h

theorem invokeCallback_accepts {kind : CallbackKind} (h : callbackAccepts kind = true)
    (m : Message) (dl : List Message) :
    invokeCallback kind m dl = .ok (dl ++ [m]) := by
  cases kind <;> simp_all [invokeCallback, callbackAccepts]

theorem drainLoop_accepts {kind : CallbackKind} (h : callbackAccepts kind = true) :
    ∀ (buf dl : List Message),
      RedisCache.drainLoop kind true buf dl = (none, [], dl ++ buf)
  | [], dl => by simp [RedisCache.drainLoop]
  | m :: rest, dl => by
    have hi := invokeCallback_accepts h m dl
    simp [RedisCache.drainLoop, hi, drainLoop_accepts h rest (dl ++ [m])]

/-! ## Claims -/

/-- C6 counterexample: the claim says every value that cannot be converted
to an integer falls back to the default pool size 10, but
`max_connections = None` makes `int(None)` raise `TypeError`, which the
`except ValueError` guard in `_get_max_connections` does not catch: the
error propagates instead of producing the default. -/
theorem getMaxConnections_none_counterexample :
    RedisCache.getMaxConnections [(EX_KEY_MAX_CONNECTIONS, PyValue.noneV)]
        DEFAULT_MAX_CONNECTIONS = .error .typeError ∧
      (Except.error PyException.typeError : Except PyException Int) ≠
        .ok DEFAULT_MAX_CONNECTIONS := by
  constructor
  · rfl
  · decide

/-- C6 (amended): when the `max_connections` key is absent the pool size
is the default 10; when present, `int(value)` is used; a value whose
conversion raises `ValueError` (e.g. a non-numeric string) falls back to
the default; but a value whose conversion raises `TypeError` (e.g.
`None`) propagates the error rather than falling back. -/
theorem getMaxConnections_spec (kwargs : List (String × PyValue)) (v : PyValue) (n : Int) :
    (lookupAssoc kwargs EX_KEY_MAX_CONNECTIONS = none →
      RedisCache.getMaxConnections kwargs DEFAULT_MAX_CONNECTIONS =
        .ok DEFAULT_MAX_CONNECTIONS) ∧
    (lookupAssoc kwargs EX_KEY_MAX_CONNECTIONS = some v →
      (pyInt v = .ok n →
        RedisCache.getMaxConnections kwargs DEFAULT_MAX_CONNECTIONS = .ok n) ∧
      (pyInt v = .error .valueError →
        RedisCache.getMaxConnections kwargs DEFAULT_MAX_CONNECTIONS =
          .ok DEFAULT_MAX_CONNECTIONS) ∧
      (pyInt v = .error .typeError →
        RedisCache.getMaxConnections kwargs DEFAULT_MAX_CONNECTIONS =
          .error .typeError)) := by
  unfold RedisCache.getMaxConnections
  constructor
  · intro h
    rw [h]
    rfl
  · intro h
    rw [h]
    refine ⟨fun hv => ?_, fun hv => ?_, fun hv => ?_⟩ <;> simp only [hv]

/-- C7: every key-accepting operation prepends the configured prefix (the
empty string when none was configured at construction) to each input key
before delegating to the store driver, and `mset` applies the transform
to every key of the mapping while keeping each key's value association
unchanged. -/
theorem keyNamespaceTransform (s : CacheState) (key val : String) (secs : Int)
    (ks : List String) (pairs : List (String × String))
    (host : String) (port : Int) (pw : Option String)
    (kwargs : List (String × PyValue)) :
    (RedisCache.set s key val).cmdKeys = [s.keyPrefix ++ key] ∧
    (RedisCache.get s key).cmdKeys = [s.keyPrefix ++ key] ∧
    (RedisCache.append s key val).cmdKeys = [s.keyPrefix ++ key] ∧
    (RedisCache.expire s key secs).cmdKeys = [s.keyPrefix ++ key] ∧
    (RedisCache.delete s ks).cmdKeys = ks.map (fun k => s.keyPrefix ++ k) ∧
    (RedisCache.existsCount s ks).cmdKeys = ks.map (fun k => s.keyPrefix ++ k) ∧
    (RedisCache.mset s pairs).cmdPairs =
      pairs.map (fun p => (s.keyPrefix ++ p.1, p.2)) ∧
    (∀ p ∈ pairs, (s.keyPrefix ++ p.1, p.2) ∈ (RedisCache.mset s pairs).cmdPairs) ∧
    (RedisCache.init host port pw none kwargs).keyPrefix = "" ∧
    (RedisCache.init host port pw (some "") kwargs).keyPrefix = "" := by
  refine ⟨rfl, rfl, rfl, rfl, rfl, rfl, rfl, ?_, rfl, rfl⟩
  intro p hp
  simp only [RedisCache.mset, StoreCommand.cmdPairs, List.mem_map]
  exact ⟨p, hp, rfl⟩

/-- C10: `get_subscribe_task`, `cancel_subscribe_task` and
`wait_subscribe` on a channel absent from the Subscription Registry all
fail with `KeyError` (the dict lookup raises before anything else runs)
and leave the registry and the exit set unchanged. -/
theorem missingChannelKeyError (s : CacheState) (ch : String)
    (h : ch ∉ dictKeys s.subscribes) :
    RedisCache.getSubscribeTask s ch = .error .keyError ∧
    RedisCache.cancelSubscribeTask s ch = .error .keyError ∧
    RedisCache.waitSubscribe s ch = .error .keyError ∧
    applyOp s (.getSubscribeTaskOp ch) = s ∧
    applyOp s (.cancelSubscribeTaskOp ch) = s ∧
    applyOp s (.waitSubscribeOp ch) = s := by
  have hl := dictLookup_eq_none_of_not_mem h
  refine ⟨?_, ?_, ?_, rfl, ?_, rfl⟩ <;>
    simp [RedisCache.getSubscribeTask, RedisCache.cancelSubscribeTask,
      RedisCache.waitSubscribe, applyOp, hl]

/-- Sample client state used by the concrete witnesses: an open client
with two registered listener tasks, one of which already finished, and
one channel flagged for exit. -/
def sampleState : CacheState :=
  { host := "localhost"
    port := 6379
    pw := some ""
    keyPrefix := "tester:"
    kwargs := []
    redisOpen := true
    subscribes := [("c1", .running), ("c2", .done)]
    subscribesExit := ["c2"] }

/-- Witness for C10 at a concrete missing channel. -/
theorem missingChannelKeyError_witness :
    "nope" ∉ dictKeys sampleState.subscribes ∧
    (RedisCache.getSubscribeTask sampleState "nope" = .error .keyError ∧
      RedisCache.cancelSubscribeTask sampleState "nope" = .error .keyError ∧
      RedisCache.waitSubscribe sampleState "nope" = .error .keyError ∧
      applyOp sampleState (.getSubscribeTaskOp "nope") = sampleState ∧
      applyOp sampleState (.cancelSubscribeTaskOp "nope") = sampleState ∧
      applyOp sampleState (.waitSubscribeOp "nope") = sampleState) :=
  ⟨by decide, missingChannelKeyError sampleState "nope" (by decide)⟩

/-- C3: on the bounded-timeout path of `close_subscribes`, the
`TimeoutError` is caught (nothing propagates to the caller), `cancel()`
is applied to every registered task handle — so every task still running
at the timeout is forcibly cancelled, with no further waiting modelled —
and the default bound is 5.0 time units. -/
theorem closeSubscribesTimeoutPath (s : CacheState) :
    (RedisCache.closeSubscribes s .timedOut).raised = none ∧
    (RedisCache.closeSubscribes s .timedOut).tasks =
      s.subscribes.map (fun p => (p.1, p.2.cancelRun)) ∧
    (∀ p ∈ s.subscribes, p.2 = TaskStatus.running →
      (p.1, TaskStatus.cancelled) ∈ (RedisCache.closeSubscribes s .timedOut).tasks) ∧
    subscribesCloseTimeoutDefault = 5 := by
  refine ⟨rfl, rfl, ?_, rfl⟩
  intro p hp hrun
  simp only [RedisCache.closeSubscribes, List.mem_map]
  exact ⟨p, hp, by rw [hrun]; rfl⟩

/-- C9: `close` on an unopened client fails the `assert self._redis`
check with no state change; on an open client (when the subscription
shutdown itself does not re-raise a task failure) it runs the full
shutdown, passes the registry-empty assertion, releases the connection
and marks the client closed, so `is_open()` is false afterwards. -/
theorem closeLifecycle (s : CacheState) (oc : AwaitOutcome)
    (h : oc ≠ .taskRaised) :
    (RedisCache.isOpen s = false →
      RedisCache.close s oc = (some .assertionError, s)) ∧
    (RedisCache.isOpen s = true →
      (RedisCache.close s oc).1 = none ∧
      RedisCache.isOpen (RedisCache.close s oc).2 = false ∧
      (RedisCache.close s oc).2.subscribes = [] ∧
      (RedisCache.close s oc).2.subscribesExit = []) := by
  constructor
  · intro hcl
    simp [RedisCache.close, RedisCache.isOpen] at *
    simp [hcl]
  · intro hop
    simp only [RedisCache.isOpen] at hop
    cases oc with
    | completed => simp [RedisCache.close, RedisCache.closeSubscribes, hop,
        RedisCache.isOpen]
    | timedOut => simp [RedisCache.close, RedisCache.closeSubscribes, hop,
        RedisCache.isOpen]
    | taskRaised => exact absurd rfl h

/-- Witness for C9 at a concrete open client. -/
theorem closeLifecycle_witness :
    AwaitOutcome.completed ≠ AwaitOutcome.taskRaised ∧
    ((RedisCache.isOpen sampleState = false →
      RedisCache.close sampleState .completed = (some .assertionError, sampleState)) ∧
    (RedisCache.isOpen sampleState = true →
      (RedisCache.close sampleState .completed).1 = none ∧
      RedisCache.isOpen (RedisCache.close sampleState .completed).2 = false ∧
      (RedisCache.close sampleState .completed).2.subscribes = [] ∧
      (RedisCache.close sampleState .completed).2.subscribesExit = [])) :=
  ⟨by decide, closeLifecycle sampleState .completed (by decide)⟩

/-- C1: whichever path `close_subscribes` takes (all tasks terminated,
the bounded timeout forced cancellation, or an `await task` re-raised a
task failure), its `finally` block leaves both the Subscription Registry
and the Exit-Request Set empty; and no other operation of the class ever
removes an entry from the registry (`close` removes entries only by
invoking `close_subscribes` itself, see the definition of
`RedisCache.close`; a listener task's own checkpoint removes entries
only from the exit set). -/
theorem registryClearedOnlyByCloseSubscribes (s : CacheState) (oc : AwaitOutcome)
    (op : CacheOp) (ch : String) (h : ch ∈ dictKeys s.subscribes) :
    (RedisCache.closeSubscribes s oc).state.subscribes = [] ∧
    (RedisCache.closeSubscribes s oc).state.subscribesExit = [] ∧
    ch ∈ dictKeys (applyOp s op).subscribes := by
  refine ⟨?_, ?_, ?_⟩
  · cases oc <;> rfl
  · cases oc <;> rfl
  · cases op
    case subscribeOp k => exact mem_dictKeys_dictInsert k _ h
    case cancelSubscribeTaskOp k =>
      simp only [applyOp]
      cases hl : dictLookup s.subscribes k with
      | none => exact h
      | some t => exact mem_dictKeys_dictInsert k _ h
    case listenerCheckpointOp k =>
      simp only [applyOp]
      split <;> exact h
    all_goals exact h

/-- Witness for C1 at a concrete state, outcome and operation. -/
theorem registryClearedOnlyByCloseSubscribes_witness :
    "c1" ∈ dictKeys sampleState.subscribes ∧
    ((RedisCache.closeSubscribes sampleState .taskRaised).state.subscribes = [] ∧
      (RedisCache.closeSubscribes sampleState .taskRaised).state.subscribesExit = [] ∧
      "c1" ∈ dictKeys (applyOp sampleState (.subscribeOp "c3")).subscribes) :=
  ⟨by decide,
    registryClearedOnlyByCloseSubscribes sampleState .taskRaised
      (.subscribeOp "c3") "c1" (by decide)⟩

/-- C2: a listener task whose channel is in the Exit-Request Set observes
the flag at its next loop checkpoint (one iteration of fuel suffices),
removes the channel from the set, exits the consume loop, and — with
flush-on-exit enabled — the drain loop delivers every already-buffered
message to the callback via zero-wait fetches until none remain: the
task finishes with the whole buffer delivered in order and nothing
dropped. -/
theorem gracefulExitDrainsBuffer (kind : CallbackKind) (key : String)
    (fuel : Nat) (buf : List Message) (ex : List String)
    (hkind : callbackAccepts kind = true) (hex : key ∈ ex)
    (hnodup : ex.Nodup) (hfuel : 1 ≤ fuel) :
    RedisCache.subscribeTask kind key true fuel buf ex =
      .finished [] (ex.erase key) buf ∧
    key ∉ ex.erase key := by
  obtain ⟨n, rfl⟩ : ∃ n, fuel = n + 1 := ⟨fuel - 1, by omega⟩
  constructor
  · cases buf with
    | nil =>
      simp [RedisCache.subscribeTask, RedisCache.consumeLoop, hex,
        RedisCache.drainLoop]
    | cons m rest =>
      have hi := invokeCallback_accepts hkind m []
      simp [RedisCache.subscribeTask, RedisCache.consumeLoop, hi, hex,
        drainLoop_accepts hkind rest [m]]
  · exact hnodup.not_mem_erase

/-- Concrete messages used by the witnesses. -/
def sampleMsgA : Message :=
  { type := "message", channel := "c1", pattern := none, data := "payload-a" }

/-- Second concrete message used by the witnesses. -/
def sampleMsgB : Message :=
  { type := "message", channel := "c1", pattern := none, data := "payload-b" }

/-- Witness for C2: two buffered messages, exit already flagged. -/
theorem gracefulExitDrainsBuffer_witness :
    (callbackAccepts .coroutineFunction = true ∧ "c1" ∈ ["c1", "c2"] ∧
      (["c1", "c2"] : List String).Nodup ∧ 1 ≤ 1) ∧
    (RedisCache.subscribeTask .coroutineFunction "c1" true 1
        [sampleMsgA, sampleMsgB] ["c1", "c2"] =
      .finished [] ((["c1", "c2"] : List String).erase "c1")
        [sampleMsgA, sampleMsgB] ∧
      "c1" ∉ (["c1", "c2"] : List String).erase "c1") :=
  ⟨⟨by decide, by decide, by decide, by decide⟩,
    gracefulExitDrainsBuffer .coroutineFunction "c1" 1 [sampleMsgA, sampleMsgB]
      ["c1", "c2"] (by decide) (by decide) (by decide) (by decide)⟩

/-- C8: with a callback that is neither a coroutine function nor a plain
function, the listener task raises `NotImplementedError` on the first
message it would deliver — in the main consume loop, and likewise in the
drain loop — terminating the task with that failure (nothing was
delivered: the delivered list is empty). -/
theorem invalidCallbackRaises (key : String) (fuel : Nat) (m : Message)
    (rest : List Message) (ex : List String) (h : 1 ≤ fuel) :
    RedisCache.consumeLoop .other key fuel (m :: rest) ex [] =
      .raised .notImplementedError rest ex [] ∧
    RedisCache.subscribeTask .other key true fuel (m :: rest) ex =
      .raised .notImplementedError rest ex [] ∧
    RedisCache.drainLoop .other true (m :: rest) [] =
      (some .notImplementedError, rest, []) := by
  obtain ⟨n, rfl⟩ : ∃ n, fuel = n + 1 := ⟨fuel - 1, by omega⟩
  exact ⟨rfl, rfl, rfl⟩

/-- Witness for C8 at a concrete message buffer. -/
theorem invalidCallbackRaises_witness :
    1 ≤ 2 ∧
    (RedisCache.consumeLoop .other "c1" 2 [sampleMsgA, sampleMsgB] [] [] =
      .raised .notImplementedError [sampleMsgB] [] [] ∧
    RedisCache.subscribeTask .other "c1" true 2 [sampleMsgA, sampleMsgB] [] =
      .raised .notImplementedError [sampleMsgB] [] [] ∧
    RedisCache.drainLoop .other true [sampleMsgA, sampleMsgB] [] =
      (some .notImplementedError, [sampleMsgB], [])) :=
  ⟨by decide,
    invalidCallbackRaises "c1" 2 sampleMsgA [sampleMsgB] [] (by decide)⟩

/-- The message a `callbackStarted` event carries, `none` for the other
events (used to read the callback-invocation order off a trace). -/
def DeliveryEvent.startedMessage : DeliveryEvent → Option Message
  | .callbackStarted m => some m
  | _ => none

theorem flatten_blocks_startedMessage :
    ∀ ms : List Message,
      ((ms.map deliveryBlock).flatten).filterMap DeliveryEvent.startedMessage = ms
  | [] => rfl
  | m :: rest => by
    simp [deliveryBlock, DeliveryEvent.startedMessage,
      flatten_blocks_startedMessage rest]

theorem consumeLoop_canonical {kind : CallbackKind} (key : String)
    (h : callbackAccepts kind = true) :
    ∀ (fuel : Nat) (buf : List Message) (ex : List String) (dl : List Message),
      ∃ k, RedisCache.consumeLoopTrace kind key fuel buf ex =
          ((buf.take k).map deliveryBlock).flatten ∧
        (RedisCache.consumeLoop kind key fuel buf ex dl =
            .finished (buf.drop k) (ex.erase key) (dl ++ buf.take k) ∨
          RedisCache.consumeLoop kind key fuel buf ex dl =
            .outOfFuel (buf.drop k) ex (dl ++ buf.take k)) := by
  intro fuel
  induction fuel with
  | zero =>
    intro buf ex dl
    exact ⟨0, by simp [RedisCache.consumeLoopTrace],
      Or.inr (by simp [RedisCache.consumeLoop])⟩
  | succ n ih =>
    intro buf ex dl
    cases buf with
    | nil =>
      by_cases hex : key ∈ ex
      · exact ⟨0, by simp [RedisCache.consumeLoopTrace, hex],
          Or.inl (by simp [RedisCache.consumeLoop, hex])⟩
      · obtain ⟨k, htr, hres⟩ := ih [] ex dl
        refine ⟨k, ?_, ?_⟩
        · simpa [RedisCache.consumeLoopTrace, hex] using htr
        · simpa [RedisCache.consumeLoop, hex] using hres
    | cons m rest =>
      have hi := invokeCallback_accepts h m dl
      by_cases hex : key ∈ ex
      · refine ⟨1, ?_, Or.inl ?_⟩
        · simp [RedisCache.consumeLoopTrace, h, hex]
        · simp [RedisCache.consumeLoop, hi, hex]
      · obtain ⟨k, htr, hres⟩ := ih rest ex (dl ++ [m])
        refine ⟨k + 1, ?_, ?_⟩
        · simp [RedisCache.consumeLoopTrace, h, hex, htr]
        · rcases hres with hres | hres
          · exact Or.inl (by simpa [RedisCache.consumeLoop, hi, hex] using hres)
          · exact Or.inr (by simpa [RedisCache.consumeLoop, hi, hex] using hres)

theorem drainLoopTrace_accepts {kind : CallbackKind}
    (h : callbackAccepts kind = true) :
    ∀ buf : List Message,
      RedisCache.drainLoopTrace kind true buf = (buf.map deliveryBlock).flatten
  | [] => by simp [RedisCache.drainLoopTrace]
  | m :: rest => by
    simp [RedisCache.drainLoopTrace, h, drainLoopTrace_accepts h rest]

/-- C4: for a valid (sync or async) callback, the event trace of a
listener-task run is a concatenation of per-message blocks
`fetched m, callbackStarted m, callbackCompleted m` over a prefix of the
received-message sequence: every callback invocation completes before
the next message is fetched (single-flight, whether the invocation was
awaited or ran inline), and the callback-invocation order read off the
trace is exactly the receipt order. -/
theorem singleFlightInOrderDelivery (kind : CallbackKind) (key : String)
    (flush : Bool) (fuel : Nat) (buf : List Message) (ex : List String)
    (h : callbackAccepts kind = true) :
    ∃ k, RedisCache.subscribeTaskTrace kind key flush fuel buf ex =
        ((buf.take k).map deliveryBlock).flatten ∧
      (RedisCache.subscribeTaskTrace kind key flush fuel buf ex).filterMap
          DeliveryEvent.startedMessage = buf.take k := by
  have main : ∃ k, RedisCache.subscribeTaskTrace kind key flush fuel buf ex =
      ((buf.take k).map deliveryBlock).flatten := by
    unfold RedisCache.subscribeTaskTrace
    obtain ⟨k, htr, hres⟩ := consumeLoop_canonical key h fuel buf ex []
    rcases hres with hres | hres
    · rw [hres]
      dsimp only
      cases flush with
      | true =>
        refine ⟨buf.length, ?_⟩
        rw [htr, drainLoopTrace_accepts h, List.take_length, ← List.flatten_append,
          ← List.map_append, List.take_append_drop]
      | false =>
        refine ⟨k, ?_⟩
        rw [htr]
        simp [RedisCache.drainLoopTrace]
    · rw [hres]
      dsimp only
      exact ⟨k, htr⟩
  obtain ⟨k, hk⟩ := main
  exact ⟨k, hk, by rw [hk, flatten_blocks_startedMessage]⟩

/-- Witness for C4 at a concrete run. -/
theorem singleFlightInOrderDelivery_witness :
    callbackAccepts .syncFunction = true ∧
    (∃ k, RedisCache.subscribeTaskTrace .syncFunction "c1" true 3
        [sampleMsgA, sampleMsgB] ["c1"] =
        (([sampleMsgA, sampleMsgB].take k).map deliveryBlock).flatten ∧
      (RedisCache.subscribeTaskTrace .syncFunction "c1" true 3
          [sampleMsgA, sampleMsgB] ["c1"]).filterMap
          DeliveryEvent.startedMessage = [sampleMsgA, sampleMsgB].take k) :=
  ⟨by decide,
    singleFlightInOrderDelivery .syncFunction "c1" true 3
      [sampleMsgA, sampleMsgB] ["c1"] (by decide)⟩

/-- C5: `clear` repeatedly issues the scan matching the configured prefix
followed by `"*"` with page size `CLEAR_SCAN_STEP = 1024`, deletes each
returned batch, and stops exactly when a scan pass yields no keys; once
the loop terminates (any fuel beyond the store size suffices), every key
carrying the prefix is absent from the keyspace, every key outside the
prefix namespace is untouched, and nothing was added. -/
theorem clearSweepsNamespace (pfx : String) (fuel : Nat)
    (store : List (String × String)) (h : store.length + 1 ≤ fuel) :
    CLEAR_SCAN_STEP = 1024 ∧
    ∃ store', RedisCache.clear pfx fuel store = some store' ∧
      (∀ p ∈ store', matchesClearPattern pfx p.1 = false) ∧
      (∀ p ∈ store, matchesClearPattern pfx p.1 = false → p ∈ store') ∧
      (∀ p ∈ store', p ∈ store) := by
  refine ⟨rfl, ?_⟩
  induction fuel generalizing store with
  | zero => omega
  | succ n ih =>
    by_cases hempty : (storeScan store pfx CLEAR_SCAN_STEP).2.isEmpty = true
    · refine ⟨store, ?_, ?_, fun p hp _ => hp, fun p hp => hp⟩
      · rw [RedisCache.clear, if_pos hempty]
      · intro p hp
        have hnil : ((store.map Prod.fst).filter
            (fun k => matchesClearPattern pfx k)).take CLEAR_SCAN_STEP = [] :=
          List.isEmpty_iff.mp hempty
        have hfil : (store.map Prod.fst).filter
            (fun k => matchesClearPattern pfx k) = [] := by
          rcases List.take_eq_nil_iff.mp hnil with h0 | h0
          · exact absurd h0 (by decide)
          · exact h0
        have hall := List.filter_eq_nil_iff.mp hfil
        exact Bool.eq_false_iff.mpr
          (hall p.1 (List.mem_map.mpr ⟨p, hp, rfl⟩))
    · have hkeysne : (storeScan store pfx CLEAR_SCAN_STEP).2 ≠ [] := by
        intro hnil
        exact hempty (by rw [hnil]; rfl)
      have hkeysMatch : ∀ k ∈ (storeScan store pfx CLEAR_SCAN_STEP).2,
          k ∈ store.map Prod.fst ∧ matchesClearPattern pfx k = true := by
        intro k hk
        have hkf : k ∈ (store.map Prod.fst).filter
            (fun x => matchesClearPattern pfx x) := List.mem_of_mem_take hk
        exact List.mem_filter.mp hkf
      obtain ⟨k0, hk0⟩ :=
        List.exists_mem_of_ne_nil (storeScan store pfx CLEAR_SCAN_STEP).2 hkeysne
      obtain ⟨hk0m, hk0match⟩ := hkeysMatch k0 hk0
      obtain ⟨p0, hp0, hp0eq⟩ := List.mem_map.mp hk0m
      have hlt : (storeDelete store (storeScan store pfx CLEAR_SCAN_STEP).2).length <
          store.length := by
        apply List.length_filter_lt_length_iff_exists.mpr
        refine ⟨p0, hp0, ?_⟩
        simp [hp0eq, hk0]
      obtain ⟨store', heq, h1, h2, h3⟩ :=
        ih (storeDelete store (storeScan store pfx CLEAR_SCAN_STEP).2)
          (by unfold storeDelete at *; omega)
      refine ⟨store', ?_, h1, ?_, ?_⟩
      · rw [RedisCache.clear, if_neg hempty]
        exact heq
      · intro p hp hmatch
        refine h2 p (List.mem_filter.mpr ⟨hp, ?_⟩) hmatch
        have hnotin : p.1 ∉ (storeScan store pfx CLEAR_SCAN_STEP).2 := by
          intro hin
          have := (hkeysMatch p.1 hin).2
          rw [hmatch] at this
          exact Bool.false_ne_true this
        simp [hnotin]
      · intro p hp
        exact (List.filter_sublist store).mem (h3 p hp)

/-- Witness for C5 at a concrete two-key keyspace: the namespaced key is
swept, the key outside the namespace survives. -/
theorem clearSweepsNamespace_witness :
    ([("ns:a", "1"), ("other:b", "2")] : List (String × String)).length + 1 ≤ 3 ∧
    (CLEAR_SCAN_STEP = 1024 ∧
    ∃ store', RedisCache.clear "ns:" 3 [("ns:a", "1"), ("other:b", "2")] =
        some store' ∧
      (∀ p ∈ store', matchesClearPattern "ns:" p.1 = false) ∧
      (∀ p ∈ ([("ns:a", "1"), ("other:b", "2")] : List (String × String)),
        matchesClearPattern "ns:" p.1 = false → p ∈ store') ∧
      (∀ p ∈ store', p ∈ ([("ns:a", "1"), ("other:b", "2")] :
        List (String × String)))) :=
  ⟨by decide, clearSweepsNamespace "ns:" 3 [("ns:a", "1"), ("other:b", "2")]
    (by decide)⟩

end ReccCache
